import Mathlib

/-!
Verification of libplacebo's colorspace transform engine (`src/colorspace.c`)
and shader dispatch / pass-cache engine (`src/dispatch.c`).

The C code is shallowly embedded: machine floats/doubles are modelled as
exact rationals (ℚ), C structs as Lean structures, and in-place mutation as
functions returning the updated value.  External collaborators (the GPU
abstraction layer, the shader assembly layer) are modelled abstractly, as
the spec prescribes, with doc comments marking every modelled definition.
-/

namespace Placebo

/-- Color system enum, in the order of `enum pl_color_system`. -/
inductive PlColorSystem where
  | unknown
  | bt601
  | bt709
  | smpte240m
  | bt2020nc
  | bt2020c
  | bt2100pq
  | bt2100hlg
  | ycgco
  | rgb
  | xyz
deriving DecidableEq

/-- Translation of `pl_color_system_is_ycbcr_like` (colorspace.c:22). -/
def pl_color_system_is_ycbcr_like (sys : PlColorSystem) : Bool :=
  match sys with
  | .unknown | .rgb | .xyz => false
  | .bt601 | .bt709 | .smpte240m | .bt2020nc
  | .bt2020c | .bt2100pq | .bt2100hlg | .ycgco => true

/-- Translation of `pl_color_system_is_linear` (colorspace.c:44). -/
def pl_color_system_is_linear (sys : PlColorSystem) : Bool :=
  match sys with
  | .unknown | .rgb | .bt601 | .bt709 | .smpte240m | .bt2020nc | .ycgco => true
  | .bt2020c | .bt2100pq | .bt2100hlg | .xyz => false

/-- Color levels enum (`enum pl_color_levels`): unknown, TV (limited), PC (full). -/
inductive PlColorLevels where
  | unknown
  | tv
  | pc
deriving DecidableEq

/-- Alpha representation enum (`enum pl_alpha_mode`). -/
inductive PlAlphaMode where
  | unknown
  | independent
  | premultiplied
deriving DecidableEq

/-- Translation of `struct pl_bit_encoding`. -/
structure PlBitEncoding where
  sample_depth : Nat
  color_depth : Nat
  bit_shift : Nat
deriving DecidableEq

/-- Translation of `struct pl_color_repr`. -/
structure PlColorRepr where
  sys : PlColorSystem
  levels : PlColorLevels
  alpha : PlAlphaMode
  bits : PlBitEncoding
deriving DecidableEq

/-- Translation of `guess_levels` (colorspace.c:142): explicit levels win,
otherwise YCbCr-like systems default to TV range and the rest to PC range. -/
def guess_levels (repr : PlColorRepr) : PlColorLevels :=
  match repr.levels with
  | .unknown => if pl_color_system_is_ycbcr_like repr.sys then .tv else .pc
  | .tv => .tv
  | .pc => .pc

/-- Translation of `pl_color_repr_normalize` (colorspace.c:152).  The C
function returns a scale factor and mutates `repr->bits` in place; here it
returns the pair of the scale and the updated repr. -/
def pl_color_repr_normalize (repr : PlColorRepr) : ℚ × PlColorRepr :=
  let bits := repr.bits
  let scale0 : ℚ := if bits.bit_shift ≠ 0 then 1 / 2 ^ bits.bit_shift else 1
  let tex_bits : Nat := if bits.sample_depth ≠ 0 then bits.sample_depth else 8
  let col_bits : Nat := if bits.color_depth ≠ 0 then bits.color_depth else 8
  let scale : ℚ :=
    if guess_levels repr = .tv then
      scale0 * ((2 ^ tex_bits : ℚ) / (2 ^ col_bits : ℚ))
    else
      scale0 * (((2 ^ tex_bits : ℚ) - 1) / ((2 ^ col_bits : ℚ) - 1))
  (scale, { repr with
            bits := { sample_depth := bits.color_depth
                      color_depth := bits.color_depth
                      bit_shift := 0 } })

/-- A 2D CIE xy chromaticity coordinate (`struct pl_cie_xy`). -/
structure PlCieXY where
  x : ℚ
  y : ℚ
deriving DecidableEq

/-- Modelled from the spec: `pl_cie_X` (xyY to XYZ with Y = 1, Matrix/Primaries
Engine helper declared outside src/): X = x / y. -/
def pl_cie_X (xy : PlCieXY) : ℚ := xy.x / xy.y

/-- Modelled from the spec: `pl_cie_Z` (xyY to XYZ with Y = 1):
Z = (1 - x - y) / y. -/
def pl_cie_Z (xy : PlCieXY) : ℚ := (1 - xy.x - xy.y) / xy.y

/-- Translation of `struct pl_raw_primaries`: red/green/blue/white points. -/
structure PlRawPrimaries where
  red : PlCieXY
  green : PlCieXY
  blue : PlCieXY
  white : PlCieXY
deriving DecidableEq

/-- Color primaries enum, in the order of `enum pl_color_primaries`. -/
inductive PlColorPrimaries where
  | unknown
  | bt601_525
  | bt601_625
  | bt709
  | bt470m
  | bt2020
  | apple
  | adobe
  | pro_photo
  | cie_1931
  | dci_p3
  | display_p3
  | v_gamut
  | s_gamut
deriving DecidableEq

def cie_d50 : PlCieXY := ⟨0.34577, 0.35850⟩
def cie_d65 : PlCieXY := ⟨0.31271, 0.32902⟩
def cie_dci : PlCieXY := ⟨0.31400, 0.35100⟩
def cie_c : PlCieXY := ⟨0.31006, 0.31616⟩
def cie_e : PlCieXY := ⟨1/3, 1/3⟩

/-- The static `primaries[]` table inside `pl_raw_primaries_get`
(colorspace.c:420).  The `unknown` index is the zero-initialized entry of the
C array (never returned by the lookup). -/
def raw_primaries_table (prim : PlColorPrimaries) : PlRawPrimaries :=
  match prim with
  | .unknown    => ⟨⟨0, 0⟩, ⟨0, 0⟩, ⟨0, 0⟩, ⟨0, 0⟩⟩
  | .bt470m     => ⟨⟨0.670, 0.330⟩, ⟨0.210, 0.710⟩, ⟨0.140, 0.080⟩, cie_c⟩
  | .bt601_525  => ⟨⟨0.630, 0.340⟩, ⟨0.310, 0.595⟩, ⟨0.155, 0.070⟩, cie_d65⟩
  | .bt601_625  => ⟨⟨0.640, 0.330⟩, ⟨0.290, 0.600⟩, ⟨0.150, 0.060⟩, cie_d65⟩
  | .bt709      => ⟨⟨0.640, 0.330⟩, ⟨0.300, 0.600⟩, ⟨0.150, 0.060⟩, cie_d65⟩
  | .bt2020     => ⟨⟨0.708, 0.292⟩, ⟨0.170, 0.797⟩, ⟨0.131, 0.046⟩, cie_d65⟩
  | .apple      => ⟨⟨0.625, 0.340⟩, ⟨0.280, 0.595⟩, ⟨0.115, 0.070⟩, cie_d65⟩
  | .adobe      => ⟨⟨0.640, 0.330⟩, ⟨0.210, 0.710⟩, ⟨0.150, 0.060⟩, cie_d65⟩
  | .pro_photo  => ⟨⟨0.7347, 0.2653⟩, ⟨0.1596, 0.8404⟩, ⟨0.0366, 0.0001⟩, cie_d50⟩
  | .cie_1931   => ⟨⟨0.7347, 0.2653⟩, ⟨0.2738, 0.7174⟩, ⟨0.1666, 0.0089⟩, cie_e⟩
  | .dci_p3     => ⟨⟨0.680, 0.320⟩, ⟨0.265, 0.690⟩, ⟨0.150, 0.060⟩, cie_dci⟩
  | .display_p3 => ⟨⟨0.680, 0.320⟩, ⟨0.265, 0.690⟩, ⟨0.150, 0.060⟩, cie_d65⟩
  | .v_gamut    => ⟨⟨0.730, 0.280⟩, ⟨0.165, 0.840⟩, ⟨0.100, -0.03⟩, cie_d65⟩
  | .s_gamut    => ⟨⟨0.730, 0.280⟩, ⟨0.140, 0.855⟩, ⟨0.100, -0.05⟩, cie_d65⟩

/-- Translation of `pl_raw_primaries_get` (colorspace.c:400): an unknown
(zero) primaries value defaults to BT.709 before indexing the table. -/
def pl_raw_primaries_get (prim : PlColorPrimaries) : PlRawPrimaries :=
  raw_primaries_table (if prim = .unknown then .bt709 else prim)

/-- A 3-component vector of rationals (a row of `float[3]` in the C code). -/
structure Vec3 where
  x : ℚ
  y : ℚ
  z : ℚ
deriving DecidableEq

/-- Translation of `struct pl_matrix3x3`, with the nine entries spelled out
(entry `mIJ` is `m[I][J]` in the C code). -/
structure Matrix3x3 where
  m00 : ℚ
  m01 : ℚ
  m02 : ℚ
  m10 : ℚ
  m11 : ℚ
  m12 : ℚ
  m20 : ℚ
  m21 : ℚ
  m22 : ℚ
deriving DecidableEq

/-- The identity matrix `pl_matrix3x3_identity`. -/
def pl_matrix3x3_identity : Matrix3x3 := ⟨1, 0, 0, 0, 1, 0, 0, 0, 1⟩

/-- Modelled from the spec: `pl_matrix3x3_mul` (3x3 matrix multiply, a
Matrix/Primaries Engine operation declared outside src/).  The C function
overwrites its first operand with the product; here we return `a * b`. -/
def pl_matrix3x3_mul (a b : Matrix3x3) : Matrix3x3 :=
  ⟨a.m00 * b.m00 + a.m01 * b.m10 + a.m02 * b.m20,
   a.m00 * b.m01 + a.m01 * b.m11 + a.m02 * b.m21,
   a.m00 * b.m02 + a.m01 * b.m12 + a.m02 * b.m22,
   a.m10 * b.m00 + a.m11 * b.m10 + a.m12 * b.m20,
   a.m10 * b.m01 + a.m11 * b.m11 + a.m12 * b.m21,
   a.m10 * b.m02 + a.m11 * b.m12 + a.m12 * b.m22,
   a.m20 * b.m00 + a.m21 * b.m10 + a.m22 * b.m20,
   a.m20 * b.m01 + a.m21 * b.m11 + a.m22 * b.m21,
   a.m20 * b.m02 + a.m21 * b.m12 + a.m22 * b.m22⟩

/-- Modelled from the spec: `pl_matrix3x3_apply` (matrix-vector product,
Matrix/Primaries Engine operation declared outside src/). -/
def pl_matrix3x3_apply (a : Matrix3x3) (v : Vec3) : Vec3 :=
  ⟨a.m00 * v.x + a.m01 * v.y + a.m02 * v.z,
   a.m10 * v.x + a.m11 * v.y + a.m12 * v.z,
   a.m20 * v.x + a.m21 * v.y + a.m22 * v.z⟩

/-- Modelled from the spec: `pl_matrix3x3_scale` (entrywise scaling of a 3x3
matrix, a Matrix/Primaries Engine operation declared outside src/). -/
def pl_matrix3x3_scale (s : ℚ) (a : Matrix3x3) : Matrix3x3 :=
  ⟨s * a.m00, s * a.m01, s * a.m02,
   s * a.m10, s * a.m11, s * a.m12,
   s * a.m20, s * a.m21, s * a.m22⟩

/-- Modelled from the spec: `pl_matrix3x3_invert` (3x3 inversion, a
Matrix/Primaries Engine operation declared outside src/), via the adjugate
divided by the determinant.  Exact over ℚ; degenerate inputs (det = 0) yield
the all-zero matrix since division by zero is zero in ℚ, mirroring the
spec's degenerate-input tolerance. -/
def pl_matrix3x3_invert (a : Matrix3x3) : Matrix3x3 :=
  let det := a.m00 * (a.m11 * a.m22 - a.m12 * a.m21)
           - a.m01 * (a.m10 * a.m22 - a.m12 * a.m20)
           + a.m02 * (a.m10 * a.m21 - a.m11 * a.m20)
  let d := 1 / det
  ⟨d * (a.m11 * a.m22 - a.m12 * a.m21),
   d * (a.m02 * a.m21 - a.m01 * a.m22),
   d * (a.m01 * a.m12 - a.m02 * a.m11),
   d * (a.m12 * a.m20 - a.m10 * a.m22),
   d * (a.m00 * a.m22 - a.m02 * a.m20),
   d * (a.m02 * a.m10 - a.m00 * a.m12),
   d * (a.m10 * a.m21 - a.m11 * a.m20),
   d * (a.m01 * a.m20 - a.m00 * a.m21),
   d * (a.m00 * a.m11 - a.m01 * a.m10)⟩

/-- Translation of `pl_get_rgb2xyz_matrix` (colorspace.c:516): the standard
xyY-to-XYZ system-of-equations derivation. -/
def pl_get_rgb2xyz_matrix (prim : PlRawPrimaries) : Matrix3x3 :=
  let X0 := prim.red.x / prim.red.y
  let X1 := prim.green.x / prim.green.y
  let X2 := prim.blue.x / prim.blue.y
  let X3 := prim.white.x / prim.white.y
  let Z0 := (1 - prim.red.x - prim.red.y) / prim.red.y
  let Z1 := (1 - prim.green.x - prim.green.y) / prim.green.y
  let Z2 := (1 - prim.blue.x - prim.blue.y) / prim.blue.y
  let Z3 := (1 - prim.white.x - prim.white.y) / prim.white.y
  let inv := pl_matrix3x3_invert ⟨X0, X1, X2, 1, 1, 1, Z0, Z1, Z2⟩
  let S0 := inv.m00 * X3 + inv.m01 * 1 + inv.m02 * Z3
  let S1 := inv.m10 * X3 + inv.m11 * 1 + inv.m12 * Z3
  let S2 := inv.m20 * X3 + inv.m21 * 1 + inv.m22 * Z3
  ⟨S0 * X0, S1 * X1, S2 * X2,
   S0, S1, S2,
   S0 * Z0, S1 * Z1, S2 * Z2⟩

/-- Translation of `pl_get_xyz2rgb_matrix` (colorspace.c:554): the inverse of
the rgb2xyz matrix. -/
def pl_get_xyz2rgb_matrix (prim : PlRawPrimaries) : Matrix3x3 :=
  pl_matrix3x3_invert (pl_get_rgb2xyz_matrix prim)

/-- The CIECAM97 revised linear cone-response matrix `m_cat97`
(colorspace.c:564). -/
def m_cat97 : Matrix3x3 :=
  ⟨0.8562, 0.3372, -0.1934,
   -0.8360, 1.8327, 0.0033,
   0.0357, -0.0469, 1.0112⟩

/-- Translation of `apply_chromatic_adaptation` (colorspace.c:571).  The C
function updates `mat` in place to `mat * Ma^-1 * (I*[Cd/Cs]) * Ma`; it is
skipped entirely (identity update) when the two white points differ by less
than 1e-6 in both coordinates. -/
def apply_chromatic_adaptation (src dest : PlCieXY) (mat : Matrix3x3) : Matrix3x3 :=
  if |src.x - dest.x| < 1/1000000 ∧ |src.y - dest.y| < 1/1000000 then
    mat
  else
    let cs0 := m_cat97.m00 * pl_cie_X src + m_cat97.m01 * 1 + m_cat97.m02 * pl_cie_Z src
    let cs1 := m_cat97.m10 * pl_cie_X src + m_cat97.m11 * 1 + m_cat97.m12 * pl_cie_Z src
    let cs2 := m_cat97.m20 * pl_cie_X src + m_cat97.m21 * 1 + m_cat97.m22 * pl_cie_Z src
    let cd0 := m_cat97.m00 * pl_cie_X dest + m_cat97.m01 * 1 + m_cat97.m02 * pl_cie_Z dest
    let cd1 := m_cat97.m10 * pl_cie_X dest + m_cat97.m11 * 1 + m_cat97.m12 * pl_cie_Z dest
    let cd2 := m_cat97.m20 * pl_cie_X dest + m_cat97.m21 * 1 + m_cat97.m22 * pl_cie_Z dest
    let tmp := pl_matrix3x3_mul ⟨cd0 / cs0, 0, 0, 0, cd1 / cs1, 0, 0, 0, cd2 / cs2⟩ m_cat97
    let ma_inv := pl_matrix3x3_invert m_cat97
    pl_matrix3x3_mul (pl_matrix3x3_mul mat ma_inv) tmp

/-- Rendering intent enum (`enum pl_rendering_intent`). -/
inductive PlRenderingIntent where
  | perceptual
  | relative_colorimetric
  | saturation
  | absolute_colorimetric
deriving DecidableEq

/-- Translation of `pl_get_color_mapping_matrix` (colorspace.c:755):
identity for saturation intent; otherwise XYZ-to-RGB(dst), composed with
chromatic adaptation unless the intent is absolute colorimetric, composed
with RGB-to-XYZ(src). -/
def pl_get_color_mapping_matrix (src dst : PlRawPrimaries)
    (intent : PlRenderingIntent) : Matrix3x3 :=
  if intent = .saturation then pl_matrix3x3_identity
  else
    pl_matrix3x3_mul
      (if intent ≠ .absolute_colorimetric then
        apply_chromatic_adaptation src.white dst.white (pl_get_xyz2rgb_matrix dst)
      else pl_get_xyz2rgb_matrix dst)
      (pl_get_rgb2xyz_matrix src)

/-- Translation of `struct pl_color_adjustment`. -/
structure PlColorAdjustment where
  brightness : ℚ
  contrast : ℚ
  saturation : ℚ
  hue : ℚ
  gamma : ℚ
deriving DecidableEq

/-- Translation of `pl_color_adjustment_neutral` (colorspace.c:362). -/
def pl_color_adjustment_neutral : PlColorAdjustment :=
  { brightness := 0, contrast := 1, saturation := 1, hue := 0, gamma := 1 }

/-- An interpretation of the transcendental `cos`/`sin` used by
`pl_color_repr_decode` for the hue rotation.  The C code computes them with
the C library in double precision; the embedding is parametric in the
interpretation, and theorems assume only the facts of the real functions
they need (such as cos 0 = 1 and sin 0 = 0, which hold exactly in IEEE
double as well). -/
structure TrigModel where
  cos : ℚ → ℚ
  sin : ℚ → ℚ

/-- A trivial trig interpretation agreeing with the real cos/sin at 0; used
to instantiate theorems at concrete inputs. -/
def trig_at_zero : TrigModel := ⟨fun _ => 1, fun _ => 0⟩

/-- Translation of `struct pl_transform3x3`: a matrix plus a constant
offset. -/
structure Transform3x3 where
  mat : Matrix3x3
  c : Vec3
deriving DecidableEq

/-- Translation of `pl_transform3x3_apply` semantics: `v := mat * v + c`. -/
def pl_transform3x3_apply (t : Transform3x3) (v : Vec3) : Vec3 :=
  let w := pl_matrix3x3_apply t.mat v
  ⟨w.x + t.c.x, w.y + t.c.y, w.z + t.c.z⟩

/-- Translation of `luma_coeffs` (colorspace.c:802): the Y/U/V columns of a
yuv-to-rgb matrix from the luma weights of R, G, B. -/
def luma_coeffs (lr lg lb : ℚ) : Matrix3x3 :=
  ⟨1, 0, 2 * (1 - lr),
   1, -2 * (1 - lb) * lb / lg, -2 * (1 - lr) * lr / lg,
   1, 2 * (1 - lb), 0⟩

/-- The base decode matrix selected by `repr->sys` in `pl_color_repr_decode`
(colorspace.c:818-862). -/
def decode_base_mat (sys : PlColorSystem) : Matrix3x3 :=
  match sys with
  | .bt709 => luma_coeffs 0.2126 0.7152 0.0722
  | .bt601 => luma_coeffs 0.2990 0.5870 0.1140
  | .smpte240m => luma_coeffs 0.2122 0.7013 0.0865
  | .bt2020nc => luma_coeffs 0.2627 0.6780 0.0593
  | .bt2020c => ⟨0, 0, 1, 1, 0, 0, 0, 1, 0⟩
  | .bt2100pq | .bt2100hlg =>
      ⟨1, 0.008609, 0.111029625,
       1, -0.008609, -0.111029625,
       1, 0.560031, -0.320627⟩
  | .ycgco => ⟨1, -1, 1, 1, 1, 0, 1, -1, -1⟩
  | .unknown | .rgb => pl_matrix3x3_identity
  | .xyz => pl_get_xyz2rgb_matrix (pl_raw_primaries_get .bt709)

/-- The hue/saturation update of `pl_color_repr_decode` (colorspace.c:867-877):
for each row, rotate the [U, V] sub-vector by the angle whose scaled
cosine/sine are `huecos`/`huesin`. -/
def hue_rotate (huecos huesin : ℚ) (m : Matrix3x3) : Matrix3x3 :=
  ⟨m.m00, huecos * m.m01 - huesin * m.m02, huesin * m.m01 + huecos * m.m02,
   m.m10, huecos * m.m11 - huesin * m.m12, huesin * m.m11 + huecos * m.m12,
   m.m20, huecos * m.m21 - huesin * m.m22, huesin * m.m21 + huecos * m.m22⟩

/-- The matrix part of `pl_color_repr_decode` before level/bit handling:
base matrix, then hue rotation and saturation scaling for YCbCr-like
systems only. -/
def decode_mat (T : TrigModel) (p : PlColorAdjustment) (sys : PlColorSystem) :
    Matrix3x3 :=
  let m := decode_base_mat sys
  if pl_color_system_is_ycbcr_like sys then
    hue_rotate (p.saturation * T.cos p.hue) (p.saturation * T.sin p.hue) m
  else m

/-- The per-channel gain vector `mul` of `pl_color_repr_decode`
(colorspace.c:880-920), contrast already folded in. -/
def decode_mul (p : PlColorAdjustment) (repr : PlColorRepr) : Vec3 :=
  let bit_depth : Nat :=
    if repr.bits.sample_depth ≠ 0 then repr.bits.sample_depth
    else if repr.bits.color_depth ≠ 0 then repr.bits.color_depth else 8
  let scale : ℚ := (2 ^ bit_depth : ℚ) / ((2 ^ bit_depth : ℚ) - 1)
  let ymax : ℚ := if guess_levels repr = .tv then 235 / 256 * scale else 1
  let ymin : ℚ := if guess_levels repr = .tv then 16 / 256 * scale else 0
  let cmax : ℚ := if guess_levels repr = .tv then 240 / 256 * scale else 1
  let cmid : ℚ := 128 / 256 * scale
  let ymul := 1 / (ymax - ymin)
  let cmul := (1/2) / (cmax - cmid)
  if pl_color_system_is_ycbcr_like repr.sys then
    ⟨ymul * p.contrast, cmul * p.contrast, cmul * p.contrast⟩
  else
    ⟨ymul * p.contrast, ymul * p.contrast, ymul * p.contrast⟩

/-- The per-channel black-point vector `black` of `pl_color_repr_decode`
(colorspace.c:909-915). -/
def decode_black (repr : PlColorRepr) : Vec3 :=
  let bit_depth : Nat :=
    if repr.bits.sample_depth ≠ 0 then repr.bits.sample_depth
    else if repr.bits.color_depth ≠ 0 then repr.bits.color_depth else 8
  let scale : ℚ := (2 ^ bit_depth : ℚ) / ((2 ^ bit_depth : ℚ) - 1)
  let ymin : ℚ := if guess_levels repr = .tv then 16 / 256 * scale else 0
  let cmid : ℚ := 128 / 256 * scale
  if pl_color_system_is_ycbcr_like repr.sys then ⟨ymin, cmid, cmid⟩
  else ⟨ymin, ymin, ymin⟩

/-- The gain/black folding loop of `pl_color_repr_decode`
(colorspace.c:917-931): scale column j of the matrix by `mul[j]` and
re-derive the constant term (starting from the brightness bias) so that the
black point keeps mapping to RGB 0. -/
def decode_fold (brightness : ℚ) (m : Matrix3x3) (mul black : Vec3) :
    Transform3x3 :=
  let m' : Matrix3x3 :=
    ⟨m.m00 * mul.x, m.m01 * mul.y, m.m02 * mul.z,
     m.m10 * mul.x, m.m11 * mul.y, m.m12 * mul.z,
     m.m20 * mul.x, m.m21 * mul.y, m.m22 * mul.z⟩
  { mat := m'
    c := ⟨brightness - (m'.m00 * black.x + m'.m01 * black.y + m'.m02 * black.z),
          brightness - (m'.m10 * black.x + m'.m11 * black.y + m'.m12 * black.z),
          brightness - (m'.m20 * black.x + m'.m21 * black.y + m'.m22 * black.z)⟩ }

/-- Translation of `pl_color_repr_decode` (colorspace.c:812).  The C
function returns the transform and mutates `repr` in place; here it returns
the pair of the transform and the updated repr.  A missing (NULL) adjustment
defaults to `pl_color_adjustment_neutral`. -/
def pl_color_repr_decode (T : TrigModel) (repr : PlColorRepr)
    (params : Option PlColorAdjustment) : Transform3x3 × PlColorRepr :=
  let p := params.getD pl_color_adjustment_neutral
  let t := decode_fold p.brightness (decode_mat T p repr.sys)
             (decode_mul p repr) (decode_black repr)
  let nr := pl_color_repr_normalize repr
  ({ mat := pl_matrix3x3_scale nr.1 t.mat, c := t.c },
   { nr.2 with sys := .rgb, levels := .pc })

/-- The nominal TV-range white pixel of the C1 scenario: luma 235/255 with
centered chroma for YCbCr-like systems, all channels 235/255 otherwise. -/
def tv_white_pixel (sys : PlColorSystem) : Vec3 :=
  if pl_color_system_is_ycbcr_like sys then ⟨235/255, 128/255, 128/255⟩
  else ⟨235/255, 235/255, 235/255⟩

/-- The nominal TV-range black pixel of the C1 scenario: luma 16/255 with
centered chroma for YCbCr-like systems, all channels 16/255 otherwise. -/
def tv_black_pixel (sys : PlColorSystem) : Vec3 :=
  if pl_color_system_is_ycbcr_like sys then ⟨16/255, 128/255, 128/255⟩
  else ⟨16/255, 16/255, 16/255⟩

/-- Componentwise closeness of two vectors within 1e-5. -/
def vec3_close (v w : Vec3) : Prop :=
  |v.x - w.x| ≤ 1/100000 ∧ |v.y - w.y| ≤ 1/100000 ∧ |v.z - w.z| ≤ 1/100000

instance (v w : Vec3) : Decidable (vec3_close v w) := by
  unfold vec3_close; infer_instance

/-- With neutral adjustment parameters, the decode matrix does not depend on
the trig interpretation beyond its values at 0. -/
theorem decode_mat_neutral_trig (T : TrigModel) (hc : T.cos 0 = 1)
    (hs : T.sin 0 = 0) (sys : PlColorSystem) :
    decode_mat T pl_color_adjustment_neutral sys =
      decode_mat trig_at_zero pl_color_adjustment_neutral sys := by
  simp [decode_mat, pl_color_adjustment_neutral, trig_at_zero, hc, hs]

/-- With neutral adjustment parameters, decode does not depend on the trig
interpretation beyond its values at 0. -/
theorem decode_neutral_trig (T : TrigModel) (hc : T.cos 0 = 1)
    (hs : T.sin 0 = 0) (repr : PlColorRepr) :
    pl_color_repr_decode T repr (some pl_color_adjustment_neutral) =
      pl_color_repr_decode trig_at_zero repr (some pl_color_adjustment_neutral) := by
  simp only [pl_color_repr_decode, Option.getD_some,
    decode_mat_neutral_trig T hc hs]

/-- C1: for every linear color system, decoding a repr with that system, TV
levels, unset bit encoding and neutral adjustment through
`pl_color_repr_decode` maps the nominal TV-range white pixel to RGB (1,1,1)
and the nominal black pixel to RGB (0,0,0), each component within 1e-5. -/
theorem c1_decode_tv_white_black (T : TrigModel) (hc : T.cos 0 = 1)
    (hs : T.sin 0 = 0) (sys : PlColorSystem)
    (h : pl_color_system_is_linear sys = true) :
    vec3_close
      (pl_transform3x3_apply
        (pl_color_repr_decode T ⟨sys, .tv, .unknown, ⟨0, 0, 0⟩⟩
          (some pl_color_adjustment_neutral)).1
        (tv_white_pixel sys)) ⟨1, 1, 1⟩ ∧
    vec3_close
      (pl_transform3x3_apply
        (pl_color_repr_decode T ⟨sys, .tv, .unknown, ⟨0, 0, 0⟩⟩
          (some pl_color_adjustment_neutral)).1
        (tv_black_pixel sys)) ⟨0, 0, 0⟩ := by
  rw [decode_neutral_trig T hc hs]
  cases sys <;> first
    | exact absurd h (by decide)
    | norm_num [vec3_close, pl_color_repr_decode, pl_color_repr_normalize,
        decode_fold, decode_mat, decode_base_mat, luma_coeffs, hue_rotate,
        decode_mul, decode_black, guess_levels, pl_color_system_is_ycbcr_like,
        trig_at_zero, pl_color_adjustment_neutral, pl_matrix3x3_scale,
        pl_transform3x3_apply, pl_matrix3x3_apply, pl_matrix3x3_identity,
        tv_white_pixel, tv_black_pixel]

/-- Witness for C1 at the BT.709 system and a concrete trig interpretation. -/
theorem c1_decode_tv_white_black_witness :
    trig_at_zero.cos 0 = 1 ∧ trig_at_zero.sin 0 = 0 ∧
    pl_color_system_is_linear .bt709 = true ∧
    (vec3_close
      (pl_transform3x3_apply
        (pl_color_repr_decode trig_at_zero ⟨.bt709, .tv, .unknown, ⟨0, 0, 0⟩⟩
          (some pl_color_adjustment_neutral)).1
        (tv_white_pixel .bt709)) ⟨1, 1, 1⟩ ∧
    vec3_close
      (pl_transform3x3_apply
        (pl_color_repr_decode trig_at_zero ⟨.bt709, .tv, .unknown, ⟨0, 0, 0⟩⟩
          (some pl_color_adjustment_neutral)).1
        (tv_black_pixel .bt709)) ⟨0, 0, 0⟩) :=
  ⟨rfl, rfl, rfl,
   c1_decode_tv_white_black trig_at_zero rfl rfl .bt709 rfl⟩

/-- C6: after every call to `pl_color_repr_decode`, the mutated repr has
system RGB, PC levels, sample depth equal to color depth, zero bit shift,
and its alpha mode and color depth unchanged. -/
theorem c6_decode_mutates_repr (T : TrigModel) (repr : PlColorRepr)
    (params : Option PlColorAdjustment) :
    (pl_color_repr_decode T repr params).2.sys = .rgb ∧
    (pl_color_repr_decode T repr params).2.levels = .pc ∧
    (pl_color_repr_decode T repr params).2.bits.sample_depth =
      (pl_color_repr_decode T repr params).2.bits.color_depth ∧
    (pl_color_repr_decode T repr params).2.bits.bit_shift = 0 ∧
    (pl_color_repr_decode T repr params).2.alpha = repr.alpha ∧
    (pl_color_repr_decode T repr params).2.bits.color_depth =
      repr.bits.color_depth := by
  simp [pl_color_repr_decode, pl_color_repr_normalize]

/-- C7 counterexample: a repr with equal sample and color depth (8, within
1..16, PC levels) but a nonzero bit shift, on which
`pl_color_repr_normalize` neither returns 1.0 nor leaves the bits
unchanged (it returns 1/2 and zeroes the shift). -/
theorem c7_normalize_noop_counterexample :
    ¬((pl_color_repr_normalize ⟨.rgb, .pc, .unknown, ⟨8, 8, 1⟩⟩).1 = 1 ∧
      (pl_color_repr_normalize ⟨.rgb, .pc, .unknown, ⟨8, 8, 1⟩⟩).2.bits =
        ⟨8, 8, 1⟩) := by
  norm_num [pl_color_repr_normalize, guess_levels]

/-- C7 (amended): `pl_color_repr_normalize` is a no-op, returning 1.0 and
leaving the repr unchanged, whenever the sample depth equals the color
depth and the bit shift is zero, for every level setting and every
depth. -/
theorem c7_normalize_noop (repr : PlColorRepr)
    (h1 : repr.bits.sample_depth = repr.bits.color_depth)
    (h2 : repr.bits.bit_shift = 0) :
    pl_color_repr_normalize repr = (1, repr) := by
  obtain ⟨sys, levels, alpha, ⟨s, c, b⟩⟩ := repr
  have hsc : s = c := h1
  have hb : b = 0 := h2
  subst hsc hb
  rcases eq_or_ne s 0 with hs0 | hs0
  · subst hs0
    simp only [pl_color_repr_normalize, Prod.mk.injEq]
    refine ⟨?_, trivial⟩
    split <;> norm_num
  · have hp : ((2:ℚ) ^ s) ≠ 0 := by positivity
    have hp1 : ((2:ℚ) ^ s) - 1 ≠ 0 := by
      have hlt : (1:ℚ) < 2 ^ s := one_lt_pow₀ (by norm_num) hs0
      linarith
    simp only [pl_color_repr_normalize, Prod.mk.injEq]
    refine ⟨?_, trivial⟩
    simp [hs0, div_self hp, div_self hp1]

/-- Witness for the amended C7 at a concrete repr (TV levels, depth 10). -/
theorem c7_normalize_noop_witness :
    (PlColorRepr.bits ⟨.bt709, .tv, .unknown, ⟨10, 10, 0⟩⟩).sample_depth =
      (PlColorRepr.bits ⟨.bt709, .tv, .unknown, ⟨10, 10, 0⟩⟩).color_depth ∧
    (PlColorRepr.bits ⟨.bt709, .tv, .unknown, ⟨10, 10, 0⟩⟩).bit_shift = 0 ∧
    pl_color_repr_normalize ⟨.bt709, .tv, .unknown, ⟨10, 10, 0⟩⟩ =
      (1, ⟨.bt709, .tv, .unknown, ⟨10, 10, 0⟩⟩) :=
  ⟨rfl, rfl, c7_normalize_noop _ rfl rfl⟩

/-- C8: chromatic adaptation is skipped whenever the two white points differ
by less than 1e-6 in both coordinates, and the relative-colorimetric
mapping matrix between two primary sets sharing a white point is exactly
the composition of the destination XYZ-to-RGB matrix with the source
RGB-to-XYZ matrix. -/
theorem c8_chromatic_adaptation_skip :
    (∀ (src dest : PlCieXY) (mat : Matrix3x3),
      |src.x - dest.x| < 1/1000000 → |src.y - dest.y| < 1/1000000 →
      apply_chromatic_adaptation src dest mat = mat) ∧
    (∀ src dst : PlRawPrimaries, src.white = dst.white →
      pl_get_color_mapping_matrix src dst .relative_colorimetric =
        pl_matrix3x3_mul (pl_get_xyz2rgb_matrix dst)
          (pl_get_rgb2xyz_matrix src)) := by
  have hskip : ∀ (src dest : PlCieXY) (mat : Matrix3x3),
      |src.x - dest.x| < 1/1000000 → |src.y - dest.y| < 1/1000000 →
      apply_chromatic_adaptation src dest mat = mat := by
    intro src dest mat h1 h2
    rw [apply_chromatic_adaptation, if_pos ⟨h1, h2⟩]
  refine ⟨hskip, ?_⟩
  intro src dst h
  rw [pl_get_color_mapping_matrix, if_neg (by decide), if_pos (by decide),
    hskip src.white dst.white (pl_get_xyz2rgb_matrix dst)
      (by rw [h]; norm_num) (by rw [h]; norm_num)]

/-- Witness for C8 at identical D65 white points and BT.709 primaries. -/
theorem c8_chromatic_adaptation_skip_witness :
    |cie_d65.x - cie_d65.x| < 1/1000000 ∧ |cie_d65.y - cie_d65.y| < 1/1000000 ∧
    apply_chromatic_adaptation cie_d65 cie_d65 pl_matrix3x3_identity =
      pl_matrix3x3_identity ∧
    (pl_raw_primaries_get .bt709).white = (pl_raw_primaries_get .bt709).white ∧
    pl_get_color_mapping_matrix (pl_raw_primaries_get .bt709)
        (pl_raw_primaries_get .bt709) .relative_colorimetric =
      pl_matrix3x3_mul (pl_get_xyz2rgb_matrix (pl_raw_primaries_get .bt709))
        (pl_get_rgb2xyz_matrix (pl_raw_primaries_get .bt709)) :=
  ⟨by norm_num, by norm_num,
   c8_chromatic_adaptation_skip.1 cie_d65 cie_d65 pl_matrix3x3_identity
     (by norm_num) (by norm_num),
   rfl,

   c8_chromatic_adaptation_skip.2 (pl_raw_primaries_get .bt709)
     (pl_raw_primaries_get .bt709) rfl⟩

/-- C9: a NULL adjustment pointer is equivalent to the neutral adjustment:
`pl_color_repr_decode` returns the same transform and performs the same
repr mutation in both cases, for every repr. -/
theorem c9_null_defaults_to_neutral (T : TrigModel) (repr : PlColorRepr) :
    pl_color_repr_decode T repr none =
      pl_color_repr_decode T repr (some pl_color_adjustment_neutral) := rfl

/-- C10: looking up unknown primaries returns the same table entry as
looking up BT.709 (the C function returns the same pointer; in the
embedding, the same table value). -/
theorem c10_unknown_primaries_default :
    pl_raw_primaries_get .unknown = pl_raw_primaries_get .bt709 := rfl

/-! ## Dispatch / pass cache (`src/dispatch.c`) -/

/-- An abstract GPU pixel format token (`const struct pl_fmt *`); the cache
lookup compares formats by pointer, modelled as token equality. -/
structure PlFmt where
  id : Nat
deriving DecidableEq

/-- Blend factor enum (`enum pl_blend_mode`). -/
inductive PlBlendMode where
  | zero
  | one
  | src_alpha
  | one_minus_src_alpha
deriving DecidableEq

/-- Translation of `struct pl_blend_params`. -/
structure PlBlendParams where
  src_rgb : PlBlendMode
  dst_rgb : PlBlendMode
  src_alpha : PlBlendMode
  dst_alpha : PlBlendMode
deriving DecidableEq

/-- Translation of `blend_equal` (dispatch.c:453): two NULL pointers are
equal, a NULL and a non-NULL one are not, and two non-NULL ones are
compared field by field. -/
def blend_equal (a b : Option PlBlendParams) : Bool :=
  match a, b with
  | none, none => true
  | none, some _ => false
  | some _, none => false
  | some x, some y =>
      x.src_rgb == y.src_rgb && x.dst_rgb == y.dst_rgb &&
      x.src_alpha == y.src_alpha && x.dst_alpha == y.dst_alpha

/-- The dimensions of a `struct pl_var` (float element type assumed, as for
every variable in this file's scenarios): vector, matrix and array
dimension. -/
structure PlVar where
  dim_v : Nat
  dim_m : Nat
  dim_a : Nat
deriving DecidableEq

/-- Translation of `struct pl_shader_var`: a variable plus its dynamic
hint (the bound host data pointer is irrelevant to placement). -/
structure PlShaderVar where
  var : PlVar
  dynamic : Bool
deriving DecidableEq

/-- Translation of `struct pl_var_layout`. -/
structure PlVarLayout where
  offset : Nat
  stride : Nat
  size : Nat
deriving DecidableEq

/-- The `PL_ALIGN2` macro: round `x` up to a multiple of `align`. -/
def pl_align2 (x align : Nat) : Nat :=
  if align ≠ 0 then (x + align - 1) / align * align else x

/-- Modelled from the spec: `pl_std430_layout` (GPU-layout helper declared
outside src/; the spec describes push constants as std430-packed with
per-variable offsets).  Element size 4 (float); a vector's stride is its
byte size, vec3 aligns like vec4, and matrices/arrays are tightly packed
with the element alignment as stride. -/
def pl_std430_layout (offset : Nat) (v : PlVar) : PlVarLayout :=
  let el_size := 4
  let stride0 := el_size * v.dim_v
  let align0 := if v.dim_v = 3 then stride0 + el_size else stride0
  let stride := if 1 < v.dim_m * v.dim_a then align0 else stride0
  { offset := pl_align2 offset align0
    stride := stride
    size := stride * v.dim_m * v.dim_a }

/-- Modelled from the spec: `pl_std140_layout` (GPU-layout helper declared
outside src/; the spec describes uniform-buffer blocks as std140-packed
with per-field offsets).  Like std430, except matrix/array strides round up
to vec4 alignment. -/
def pl_std140_layout (offset : Nat) (v : PlVar) : PlVarLayout :=
  let el_size := 4
  let stride0 := el_size * v.dim_v
  let align0 := if v.dim_v = 3 then stride0 + el_size else stride0
  let big := 1 < v.dim_m * v.dim_a
  let align := if big then pl_align2 align0 16 else align0
  let stride := if big then align else stride0
  { offset := pl_align2 offset align
    stride := stride
    size := stride * v.dim_m * v.dim_a }

/-- Modelled from the spec: `pl_var_host_layout` (tightly packed host
memory layout of a variable, declared outside src/). -/
def pl_var_host_layout (offset : Nat) (v : PlVar) : PlVarLayout :=
  { offset := offset
    stride := 4 * v.dim_v
    size := 4 * v.dim_v * v.dim_m * v.dim_a }

/-- Modelled from the spec: the capability/limit queries of the external
GPU abstraction layer consumed by the dispatcher (spec section 6), plus two
boolean oracles abstracting the outcomes of external buffer and pass
creation. -/
structure PlGpu where
  glsl_vulkan : Bool
  glsl_version : Nat
  max_pushc_size : Nat
  max_ubo_size : Nat
  cap_input_variables : Bool
  buf_create_ok : Bool
  pass_create_ok : Bool
deriving DecidableEq

/-- Translation of `enum pass_var_type` (dispatch.c:50); `unplaced` is
`PASS_VAR_NONE`. -/
inductive PassVarType where
  | unplaced
  | global
  | ubo
  | pushc
deriving DecidableEq

/-- Translation of `struct pass_var` (dispatch.c:58), minus the cached-data
pointer (irrelevant to placement). -/
structure PassVar where
  index : Nat
  type : PassVarType
  layout : PlVarLayout
deriving DecidableEq

/-- A zero-initialized `struct pass_var`, as allocated by
`talloc_zero_array` (dispatch.c:552). -/
def PassVar.init : PassVar := ⟨0, .unplaced, ⟨0, 0, 0⟩⟩

/-- The placement-relevant mutable state threaded through `add_pass_var`:
the accumulated push-constant size of `pl_pass_params`, the packed size of
the UBO descriptor being built, and the number of global input variables. -/
structure PlaceState where
  push_constants_size : Nat
  ubo_size : Nat
  num_variables : Nat
deriving DecidableEq

/-- Translation of `add_pass_var` (dispatch.c:147).  The first (non-greedy)
sweep only places variables preferring push constants (scalars/vectors or
dynamic variables) that fit the push-constant budget; the greedy sweep
retries push constants unconditionally, then attempts the uniform buffer
(GLSL 440+, nonzero UBO limit, not dynamic when global input variables are
supported; the append itself fails when the std140 layout exceeds the UBO
size limit), then global uniforms, and reports failure (`none`) when no
method fits. -/
def add_pass_var (gpu : PlGpu) (greedy : Bool) (sv : PlShaderVar)
    (pv : PassVar) (st : PlaceState) : Option (PassVar × PlaceState) :=
  if pv.type ≠ .unplaced then some (pv, st)
  else
    let pushc_layout := pl_std430_layout st.push_constants_size sv.var
    let pushc_new := pushc_layout.offset + pushc_layout.size
    if (greedy = true ∨ (sv.var.dim_m = 1 ∧ sv.var.dim_a = 1) ∨
        sv.dynamic = true) ∧
       gpu.glsl_vulkan = true ∧ gpu.max_pushc_size ≠ 0 ∧
       pushc_new ≤ gpu.max_pushc_size then
      some ({ pv with type := .pushc, layout := pushc_layout },
            { st with push_constants_size := pushc_new })
    else if greedy = false then
      some (pv, st)
    else
      let ubo_layout := pl_std140_layout st.ubo_size sv.var
      if (gpu.cap_input_variables = false ∨ sv.dynamic = false) ∧
         440 ≤ gpu.glsl_version ∧ gpu.max_ubo_size ≠ 0 ∧
         ubo_layout.offset + ubo_layout.size ≤ gpu.max_ubo_size then
        some ({ pv with type := .ubo, layout := ubo_layout },
              { st with ubo_size := ubo_layout.offset + ubo_layout.size })
      else if gpu.cap_input_variables = true then
        some ({ pv with type := .global, index := st.num_variables,
                        layout := pl_var_host_layout 0 sv.var },
              { st with num_variables := st.num_variables + 1 })
      else none

/-- One placement sweep of `find_pass` (dispatch.c:553-561): `add_pass_var`
over the variables in order, stopping at the first failure. -/
def place_sweep (gpu : PlGpu) (greedy : Bool) :
    List (PlShaderVar × PassVar) → PlaceState →
    Option (List PassVar × PlaceState)
  | [], st => some ([], st)
  | (sv, pv) :: rest, st =>
    match add_pass_var gpu greedy sv pv st with
    | none => none
    | some (pv', st') =>
      match place_sweep gpu greedy rest st' with
      | none => none
      | some (pvs, st'') => some (pv' :: pvs, st'')

/-- The two-sweep variable placement of `find_pass` (dispatch.c:547-561):
a non-greedy sweep over zero-initialized placements followed by a greedy
sweep over the result. -/
def place_vars (gpu : PlGpu) (svs : List PlShaderVar) :
    Option (List PassVar × PlaceState) :=
  match place_sweep gpu false (svs.map (fun sv => (sv, PassVar.init)))
      ⟨0, 0, 0⟩ with
  | none => none
  | some (pvs, st) => place_sweep gpu true (svs.zip pvs) st

/-- The externally-owned compiled pass object (`const struct pl_pass *`),
restricted to the creation parameters the cache lookup reads back: the
format of the dummy target (NULL for compute passes) and the blend
parameters (stored for all pass types, for caching). -/
structure PlCompiledPass where
  target_fmt : Option PlFmt
  blend : Option PlBlendParams
deriving DecidableEq

/-- Translation of `struct pass` (dispatch.c:65), restricted to the fields
the cache logic reads: signature, failed flag, placements, UBO presence and
the compiled pass object (`pass->pass`, NULL when creation failed). -/
structure Pass where
  signature : Nat
  failed : Bool
  vars : List PassVar
  has_ubo : Bool
  pass : Option PlCompiledPass
deriving DecidableEq

/-- The cache-miss compile path of `find_pass` (dispatch.c:490-619): place
the variables (both sweeps), create the uniform buffer when one is needed,
create the external pass; any failure leaves the `failed` flag (set upfront)
in place and the compiled pass object NULL. -/
def create_pass (gpu : PlGpu) (sig : Nat) (is_compute : Bool)
    (target_fmt : Option PlFmt) (svs : List PlShaderVar)
    (blend : Option PlBlendParams) : Pass :=
  match place_vars gpu svs with
  | none =>
    { signature := sig, failed := true, vars := [], has_ubo := false,
      pass := none }
  | some (pvs, st) =>
    if st.ubo_size ≠ 0 ∧ gpu.buf_create_ok = false then
      { signature := sig, failed := true, vars := pvs, has_ubo := false,
        pass := none }
    else if gpu.pass_create_ok = false then
      { signature := sig, failed := true, vars := pvs,
        has_ubo := st.ubo_size ≠ 0, pass := none }
    else
      { signature := sig, failed := false, vars := pvs,
        has_ubo := st.ubo_size ≠ 0,
        pass := some { target_fmt := if is_compute then none else target_fmt,
                       blend := blend } }

/-- Result of the cache scan in `find_pass` (dispatch.c:471-488): a hit, a
miss, or a NULL dereference — the C code reads
`p->pass->params.target_dummy.params.format` for a signature-matching
cached pass of a non-compute shader, and `p->pass` is NULL when that
pass's compilation had failed. -/
inductive LookupResult where
  | hit : Pass → LookupResult
  | miss
  | derefNull
deriving DecidableEq

/-- The cache scan of `find_pass` (dispatch.c:471-488): linear scan;
signature mismatches are skipped; a compute shader matches on signature
alone; a raster shader additionally requires the recorded target format
and value-equal blend parameters, read from the compiled pass object. -/
def find_pass_lookup (sig : Nat) (is_compute : Bool)
    (target_fmt : Option PlFmt) (blend : Option PlBlendParams) :
    List Pass → LookupResult
  | [] => .miss
  | p :: rest =>
    if p.signature ≠ sig then
      find_pass_lookup sig is_compute target_fmt blend rest
    else if is_compute then .hit p
    else
      match p.pass with
      | none => .derefNull
      | some cp =>
        if cp.target_fmt = target_fmt ∧ blend_equal cp.blend blend = true then
          .hit p
        else find_pass_lookup sig is_compute target_fmt blend rest

/-- Translation of `find_pass` (dispatch.c:465): scan the cache; on a hit
return the cached pass without compiling; on a miss compile a new pass
(possibly failed) and append it to the cache unconditionally.  The result
carries the chosen pass, the updated cache and whether a compile ran;
`none` models the NULL dereference in the scan. -/
def find_pass (gpu : PlGpu) (passes : List Pass) (sig : Nat)
    (is_compute : Bool) (target_fmt : Option PlFmt) (svs : List PlShaderVar)
    (blend : Option PlBlendParams) : Option (Pass × List Pass × Bool) :=
  match find_pass_lookup sig is_compute target_fmt blend passes with
  | .hit p => some (p, passes, false)
  | .derefNull => none
  | .miss =>
    let p := create_pass gpu sig is_compute target_fmt svs blend
    some (p, passes ++ [p], true)

/-- Shader input/output signature enum (`enum pl_shader_sig`). -/
inductive PlShaderSig where
  | sigNone
  | sigColor
deriving DecidableEq

/-- Modelled from the spec: the dispatcher-visible state of a shader object
built by the external shader assembly layer — failed/mutable flags, I/O
signature, compute flag, the content-derived signature (an opaque
fingerprint excluding bound data pointers), the declared variables, the
number of vertex attributes, and the optional fixed output size. -/
structure PlShader where
  failed : Bool
  is_mutable : Bool
  input : PlShaderSig
  output : PlShaderSig
  is_compute : Bool
  signature : Nat
  vars : List PlShaderVar
  num_vertex_attribs : Nat
  fixed_size : Option (Nat × Nat)
deriving DecidableEq

/-- The dispatcher-visible state of a texture (`struct pl_tex` params). -/
structure PlTex where
  w : Nat
  h : Nat
  dims : Nat
  renderable : Bool
  storable : Bool
  fmt : PlFmt
deriving DecidableEq

/-- Translation of `struct pl_rect2d`. -/
structure PlRect2D where
  x0 : Int
  y0 : Int
  x1 : Int
  y1 : Int
deriving DecidableEq

/-- The cache-relevant state of `struct pl_dispatch` (dispatch.c:32): the
idle shader pool and the pass cache. -/
structure PlDispatch where
  shaders : List PlShader
  passes : List Pass
deriving DecidableEq

/-- Translation of `pl_dispatch_abort` (dispatch.c:951): a NULL handle is a
no-op; otherwise the shader is appended to the idle pool and the handle is
cleared. -/
def pl_dispatch_abort (dp : PlDispatch) (psh : Option PlShader) :
    PlDispatch × Option PlShader :=
  match psh with
  | none => (dp, none)
  | some sh => ({ dp with shaders := dp.shaders ++ [sh] }, none)

/-- Translation of the shader-side effects of `translate_compute_shader`
(dispatch.c:666): register the dynamic `out_scale` vec2 variable, four
interpolation corner variables per vertex attribute (with the attribute's
format; the position attribute's vec2 in this model), a storage-image
descriptor for the target, the dynamic `base` ivec2 variable, and reset the
output signature to NONE. -/
def translate_compute_shader (sh : PlShader) : PlShader :=
  { sh with
    vars := sh.vars ++ [⟨⟨2, 1, 1⟩, true⟩] ++
      List.replicate (4 * sh.num_vertex_attribs) ⟨⟨2, 1, 1⟩, false⟩ ++
      [⟨⟨2, 1, 1⟩, true⟩]
    output := .sigNone }

/-- The absolute width/height of a rectangle (`abs(pl_rect_w)`,
`abs(pl_rect_h)` in dispatch.c:794). -/
def pl_rect2d_size (rc : PlRect2D) : Nat × Nat :=
  ((rc.x1 - rc.x0).natAbs, (rc.y1 - rc.y0).natAbs)

/-- The pass lookup/run/reclaim tail of `pl_dispatch_finish`
(dispatch.c:818-880), taking the already-translated shader: look up or
compile the pass, fail fast silently on a failed pass, otherwise run it;
the shader is reclaimed either way.  A `none` result models the NULL
dereference inside the `find_pass` cache scan (the call does not
return). -/
def dispatch_run_pass (gpu : PlGpu) (dp : PlDispatch) (sh : PlShader)
    (target : PlTex) (blend : Option PlBlendParams) :
    Option (Bool × PlDispatch × Option PlShader) :=
  match find_pass gpu dp.passes sh.signature sh.is_compute
      (some target.fmt) sh.vars blend with
  | none => none
  | some (pass, passes', _) =>
    if pass.failed = true then
      some (false, (pl_dispatch_abort { dp with passes := passes' } (some sh)).1, none)
    else
      some (true, (pl_dispatch_abort { dp with passes := passes' } (some sh)).1, none)

/-- The post-validation tail of `pl_dispatch_finish` (dispatch.c:803-880):
translate compute shaders (or add the position vertex attribute for
raster), then look up, run and reclaim. -/
def dispatch_finish_pass (gpu : PlGpu) (dp : PlDispatch) (sh : PlShader)
    (target : PlTex) (blend : Option PlBlendParams) :
    Option (Bool × PlDispatch × Option PlShader) :=
  dispatch_run_pass gpu dp
    (if sh.is_compute then translate_compute_shader sh
     else { sh with num_vertex_attribs := sh.num_vertex_attribs + 1 })
    target blend

/-- Translation of `pl_dispatch_finish` (dispatch.c:755) for a non-NULL
shader handle.  Every early-validation failure, a failed pass, and the
success path all fall through to `pl_dispatch_abort`, which reclaims the
shader and clears the handle; the result is the returned boolean, the
updated dispatcher and the cleared handle. -/
def pl_dispatch_finish (gpu : PlGpu) (dp : PlDispatch) (sh : PlShader)
    (target : PlTex) (rc : Option PlRect2D) (blend : Option PlBlendParams) :
    Option (Bool × PlDispatch × Option PlShader) :=
  if sh.failed = true then
    some (false, (pl_dispatch_abort dp (some sh)).1, none)
  else if sh.is_mutable = false then
    some (false, (pl_dispatch_abort dp (some sh)).1, none)
  else if sh.input ≠ .sigNone ∨ sh.output ≠ .sigColor then
    some (false, (pl_dispatch_abort dp (some sh)).1, none)
  else if target.dims ≠ 2 ∨ target.renderable = false then
    some (false, (pl_dispatch_abort dp (some sh)).1, none)
  else if sh.is_compute = true ∧ target.storable = false then
    some (false, (pl_dispatch_abort dp (some sh)).1, none)
  else
    match sh.fixed_size with
    | some wh =>
      if wh ≠ pl_rect2d_size
          (rc.getD ⟨0, 0, (target.w : Int), (target.h : Int)⟩) then
        some (false, (pl_dispatch_abort dp (some sh)).1, none)
      else dispatch_finish_pass gpu dp sh target blend
    | none => dispatch_finish_pass gpu dp sh target blend

/-- Translation of `pl_dispatch_compute` (dispatch.c:883) for a non-NULL
shader handle: validation (failed, non-mutable, NONE-to-NONE signature,
compute shader, no vertex attributes), then pass lookup with no target and
no blend state, fail-fast on a failed pass, run, and unconditional
reclaim. -/
def pl_dispatch_compute (gpu : PlGpu) (dp : PlDispatch) (sh : PlShader)
    (dispatch_size : Nat × Nat × Nat) :
    Option (Bool × PlDispatch × Option PlShader) :=
  if sh.failed = true then
    some (false, (pl_dispatch_abort dp (some sh)).1, none)
  else if sh.is_mutable = false then
    some (false, (pl_dispatch_abort dp (some sh)).1, none)
  else if sh.input ≠ .sigNone ∨ sh.output ≠ .sigNone then
    some (false, (pl_dispatch_abort dp (some sh)).1, none)
  else if sh.is_compute = false then
    some (false, (pl_dispatch_abort dp (some sh)).1, none)
  else if sh.num_vertex_attribs ≠ 0 then
    some (false, (pl_dispatch_abort dp (some sh)).1, none)
  else
    match find_pass gpu dp.passes sh.signature true none sh.vars none with
    | none => none
    | some (pass, passes', _) =>
      let dp' := { dp with passes := passes' }
      if pass.failed = true then
        some (false, (pl_dispatch_abort dp' (some sh)).1, none)
      else
        some (true, (pl_dispatch_abort dp' (some sh)).1, none)

/-! ## Dispatch theorems -/

/-- Value-equal blend parameters compare equal under `blend_equal`. -/
theorem blend_equal_refl (b : Option PlBlendParams) :
    blend_equal b b = true := by
  cases b with
  | none => rfl
  | some x => simp [blend_equal]

/-- Every branch of `create_pass` records the requested signature. -/
theorem create_pass_signature (gpu : PlGpu) (sig : Nat) (is_compute : Bool)
    (fmt : Option PlFmt) (svs : List PlShaderVar)
    (blend : Option PlBlendParams) :
    (create_pass gpu sig is_compute fmt svs blend).signature = sig := by
  unfold create_pass
  rcases hpv : place_vars gpu svs with _ | ⟨pvs, st⟩
  · rfl
  · dsimp only
    split_ifs <;> rfl

/-- A successfully created pass carries a compiled pass object recording
the creation-time target format (NULL for compute) and blend parameters. -/
theorem create_pass_not_failed (gpu : PlGpu) (sig : Nat) (is_compute : Bool)
    (fmt : Option PlFmt) (svs : List PlShaderVar)
    (blend : Option PlBlendParams)
    (h : (create_pass gpu sig is_compute fmt svs blend).failed = false) :
    (create_pass gpu sig is_compute fmt svs blend).pass =
      some { target_fmt := if is_compute then none else fmt, blend := blend } := by
  unfold create_pass at h ⊢
  revert h
  rcases hpv : place_vars gpu svs with _ | ⟨pvs, st⟩
  · intro h; simp at h
  · dsimp only
    intro h
    split_ifs at h ⊢ <;> simp_all

/-- The cache-reuse criterion of C2, read off the claim: the signature must
match, and for raster dispatches the recorded target format and the blend
parameters (by value) must match as well. -/
def pass_matches (sig : Nat) (is_compute : Bool) (target_fmt : Option PlFmt)
    (blend : Option PlBlendParams) (p : Pass) : Bool :=
  p.signature == sig &&
    (is_compute ||
      match p.pass with
      | none => false
      | some cp => (cp.target_fmt == target_fmt) && blend_equal cp.blend blend)

/-- The signature match in `pass_matches` is necessary. -/
theorem pass_matches_sig {sig : Nat} {is_compute : Bool} {fmt : Option PlFmt}
    {blend : Option PlBlendParams} {p : Pass}
    (h : pass_matches sig is_compute fmt blend p = true) :
    p.signature = sig := by
  simp only [pass_matches, Bool.and_eq_true, beq_iff_eq] at h
  exact h.1

/-- A cache hit satisfies the reuse criterion. -/
theorem find_pass_lookup_hit_matches (sig : Nat) (is_compute : Bool)
    (fmt : Option PlFmt) (blend : Option PlBlendParams) :
    ∀ (passes : List Pass) (p : Pass),
      find_pass_lookup sig is_compute fmt blend passes = .hit p →
      pass_matches sig is_compute fmt blend p = true := by
  intro passes
  induction passes with
  | nil => intro p h; simp [find_pass_lookup] at h
  | cons p0 rest ih =>
    intro p h
    rw [find_pass_lookup] at h
    split_ifs at h with hsig hcomp
    · exact ih p h
    · injection h with hpe
      subst hpe
      simp [pass_matches, hcomp, not_ne_iff.mp hsig]
    · rcases hp0 : p0.pass with _ | cp
      · rw [hp0] at h
        simp at h
      · rw [hp0] at h
        dsimp only at h
        split_ifs at h with hok
        · injection h with hpe
          subst hpe
          simp [pass_matches, hp0, not_ne_iff.mp hsig, hcomp, hok.1, hok.2]
        · exact ih p h

/-- On a cache whose passes all have compiled objects, a matching pass
exists exactly when the scan produces a hit. -/
theorem find_pass_lookup_hit_iff (sig : Nat) (is_compute : Bool)
    (fmt : Option PlFmt) (blend : Option PlBlendParams) :
    ∀ passes : List Pass,
      (∀ q ∈ passes, q.pass.isSome = true) →
      ((∃ q ∈ passes, pass_matches sig is_compute fmt blend q = true) ↔
        ∃ p, find_pass_lookup sig is_compute fmt blend passes = .hit p) := by
  intro passes
  induction passes with
  | nil => intro _; simp [find_pass_lookup]
  | cons p0 rest ih =>
    intro hwf
    have hwf0 := hwf p0 (List.mem_cons_self p0 rest)
    have hwfr : ∀ q ∈ rest, q.pass.isSome = true :=
      fun q hq => hwf q (List.mem_cons_of_mem p0 hq)
    rw [find_pass_lookup]
    split_ifs with hsig hcomp
    · rw [← ih hwfr]
      constructor
      · rintro ⟨q, hq, hm⟩
        rcases List.mem_cons.mp hq with rfl | hqr
        · exact absurd (pass_matches_sig hm) hsig
        · exact ⟨q, hqr, hm⟩
      · rintro ⟨q, hq, hm⟩
        exact ⟨q, List.mem_cons_of_mem p0 hq, hm⟩
    · constructor
      · intro _; exact ⟨p0, rfl⟩
      · intro _
        refine ⟨p0, List.mem_cons_self p0 rest, ?_⟩
        simp [pass_matches, hcomp, not_ne_iff.mp hsig]
    · rcases hp0 : p0.pass with _ | cp
      · simp [hp0] at hwf0
      · dsimp only
        split_ifs with hok
        · constructor
          · intro _; exact ⟨p0, rfl⟩
          · intro _
            refine ⟨p0, List.mem_cons_self p0 rest, ?_⟩
            simp [pass_matches, hp0, not_ne_iff.mp hsig, hcomp, hok.1, hok.2]
        · rw [← ih hwfr]
          constructor
          · rintro ⟨q, hq, hm⟩
            rcases List.mem_cons.mp hq with rfl | hqr
            · exfalso
              simp [pass_matches, hp0, hcomp] at hm
              exact hok ⟨hm.2.1, hm.2.2⟩
            · exact ⟨q, hqr, hm⟩
          · rintro ⟨q, hq, hm⟩
            exact ⟨q, List.mem_cons_of_mem p0 hq, hm⟩

/-- C2: in the `find_pass` cache scan, a cached pass is reused exactly when
its signature matches and, for non-compute shaders, its recorded target
format and blend parameters match by value (on a cache of successful
passes, which are the only ones the scan can read a format from);
consequently, dispatching the same shader content twice against the same
target format and blend parameters creates exactly one compiled pass, the
second dispatch being a cache hit that does not recompile. -/
theorem c2_pass_cache_reuse :
    (∀ (passes : List Pass) (sig : Nat) (is_compute : Bool)
        (fmt : Option PlFmt) (blend : Option PlBlendParams),
      (∀ q ∈ passes, q.pass.isSome = true) →
      ((∀ p, find_pass_lookup sig is_compute fmt blend passes = .hit p →
          pass_matches sig is_compute fmt blend p = true) ∧
        ((∃ q ∈ passes, pass_matches sig is_compute fmt blend q = true) ↔
          ∃ p, find_pass_lookup sig is_compute fmt blend passes = .hit p))) ∧
    (∀ (gpu : PlGpu) (sig : Nat) (is_compute : Bool) (fmt : Option PlFmt)
        (svs : List PlShaderVar) (blend : Option PlBlendParams)
        (p : Pass) (l : List Pass) (d : Bool),
      find_pass gpu [] sig is_compute fmt svs blend = some (p, l, d) →
      p.failed = false →
      l = [p] ∧ d = true ∧
      find_pass gpu l sig is_compute fmt svs blend = some (p, l, false)) := by
  constructor
  · intro passes sig ic fmt blend hwf
    exact ⟨find_pass_lookup_hit_matches sig ic fmt blend passes,
           find_pass_lookup_hit_iff sig ic fmt blend passes hwf⟩
  · intro gpu sig ic fmt svs blend p l d h hfail
    have hfp : find_pass gpu [] sig ic fmt svs blend =
        some (create_pass gpu sig ic fmt svs blend,
              [create_pass gpu sig ic fmt svs blend], true) := rfl
    rw [hfp, Option.some_inj] at h
    injection h with hp htail
    injection htail with hl hd
    subst hp
    subst hl
    subst hd
    refine ⟨rfl, rfl, ?_⟩
    have hsg := create_pass_signature gpu sig ic fmt svs blend
    have hps := create_pass_not_failed gpu sig ic fmt svs blend hfail
    have hlk : find_pass_lookup sig ic fmt blend
        [create_pass gpu sig ic fmt svs blend] =
        .hit (create_pass gpu sig ic fmt svs blend) := by
      rw [find_pass_lookup]
      rw [if_neg (by rw [hsg]; exact fun hne => hne rfl)]
      cases ic with
      | true => rw [if_pos rfl]
      | false =>
        rw [if_neg (by simp)]
        rw [hps]
        dsimp only
        rw [if_pos ⟨by simp, blend_equal_refl blend⟩]
    rw [find_pass, hlk]

/-- A GPU environment on which compilation fully succeeds, for the C2
witness. -/
def c2_gpu : PlGpu := ⟨true, 450, 256, 65536, true, true, true⟩

/-- The pass compiled by the first dispatch of the C2 witness. -/
def c2_pass0 : Pass :=
  create_pass c2_gpu 3 false (some ⟨5⟩) [⟨⟨1, 1, 1⟩, true⟩]
    (some ⟨.one, .zero, .src_alpha, .one_minus_src_alpha⟩)

/-- Witness for C2 on an empty cache and a concrete raster dispatch. -/
theorem c2_pass_cache_reuse_witness :
    (∀ q ∈ ([] : List Pass), q.pass.isSome = true) ∧
    ((∀ p, find_pass_lookup 3 false (some ⟨5⟩)
        (some ⟨.one, .zero, .src_alpha, .one_minus_src_alpha⟩) [] = .hit p →
        pass_matches 3 false (some ⟨5⟩)
          (some ⟨.one, .zero, .src_alpha, .one_minus_src_alpha⟩) p = true) ∧
      ((∃ q ∈ ([] : List Pass), pass_matches 3 false (some ⟨5⟩)
          (some ⟨.one, .zero, .src_alpha, .one_minus_src_alpha⟩) q = true) ↔
        ∃ p, find_pass_lookup 3 false (some ⟨5⟩)
          (some ⟨.one, .zero, .src_alpha, .one_minus_src_alpha⟩) [] = .hit p)) ∧
    find_pass c2_gpu [] 3 false (some ⟨5⟩) [⟨⟨1, 1, 1⟩, true⟩]
        (some ⟨.one, .zero, .src_alpha, .one_minus_src_alpha⟩) =
      some (c2_pass0, [c2_pass0], true) ∧
    c2_pass0.failed = false ∧
    ([c2_pass0] = [c2_pass0] ∧ true = true ∧
      find_pass c2_gpu [c2_pass0] 3 false (some ⟨5⟩) [⟨⟨1, 1, 1⟩, true⟩]
          (some ⟨.one, .zero, .src_alpha, .one_minus_src_alpha⟩) =
        some (c2_pass0, [c2_pass0], false)) :=
  ⟨fun q hq => absurd hq (List.not_mem_nil q),
   c2_pass_cache_reuse.1 [] 3 false (some ⟨5⟩)
     (some ⟨.one, .zero, .src_alpha, .one_minus_src_alpha⟩)
     (fun q hq => absurd hq (List.not_mem_nil q)),
   rfl, rfl,
   c2_pass_cache_reuse.2 c2_gpu 3 false (some ⟨5⟩) [⟨⟨1, 1, 1⟩, true⟩]
     (some ⟨.one, .zero, .src_alpha, .one_minus_src_alpha⟩)
     c2_pass0 [c2_pass0] true rfl rfl⟩

/-- The dynamic scalar variable of the C3 scenario. -/
def c3_scalar : PlShaderVar := ⟨⟨1, 1, 1⟩, true⟩

/-- The static 4x4 matrix variable of the C3 scenario. -/
def c3_mat4 : PlShaderVar := ⟨⟨4, 4, 1⟩, false⟩

/-- C3: with a push-constant budget that fits the 4-byte scalar but not the
64-byte matrix (which needs bytes up to offset 80 after the scalar), and a
device that supports uniform buffers or global input variables, the
two-sweep placement succeeds, placing the dynamic scalar in push constants
and the static matrix in the UBO or the global-uniform fallback. -/
theorem c3_two_pass_placement (gpu : PlGpu)
    (hv : gpu.glsl_vulkan = true)
    (hlo : 4 ≤ gpu.max_pushc_size) (hhi : gpu.max_pushc_size < 80)
    (hcap : (440 ≤ gpu.glsl_version ∧ 64 ≤ gpu.max_ubo_size) ∨
        gpu.cap_input_variables = true) :
    ∃ pvs st, place_vars gpu [c3_scalar, c3_mat4] = some (pvs, st) ∧
      (pvs.map PassVar.type = [.pushc, .ubo] ∨
       pvs.map PassVar.type = [.pushc, .global]) := by
  have hne : gpu.max_pushc_size ≠ 0 := by omega
  have h04 : 0 + 4 ≤ gpu.max_pushc_size := by omega
  have h80 : ¬(16 + 64 ≤ gpu.max_pushc_size) := by omega
  have ha : add_pass_var gpu false c3_scalar PassVar.init ⟨0, 0, 0⟩ =
      some (⟨0, .pushc, ⟨0, 4, 4⟩⟩, ⟨4, 0, 0⟩) := by
    simp [add_pass_var, c3_scalar, PassVar.init, pl_std430_layout, pl_align2,
      hv, hne, h04]
  have hb : add_pass_var gpu false c3_mat4 PassVar.init ⟨4, 0, 0⟩ =
      some (PassVar.init, ⟨4, 0, 0⟩) := by
    simp [add_pass_var, c3_mat4, PassVar.init]
  have hc : add_pass_var gpu true c3_scalar ⟨0, .pushc, ⟨0, 4, 4⟩⟩ ⟨4, 0, 0⟩ =
      some (⟨0, .pushc, ⟨0, 4, 4⟩⟩, ⟨4, 0, 0⟩) := by
    simp [add_pass_var]
  have hsweep1 : place_sweep gpu false
      [(c3_scalar, PassVar.init), (c3_mat4, PassVar.init)] ⟨0, 0, 0⟩ =
      some ([⟨0, .pushc, ⟨0, 4, 4⟩⟩, PassVar.init], ⟨4, 0, 0⟩) := by
    rw [place_sweep, ha]
    dsimp only
    rw [place_sweep, hb]
    dsimp only
    rw [place_sweep]
  have hstart : place_vars gpu [c3_scalar, c3_mat4] =
      place_sweep gpu true
        [(c3_scalar, ⟨0, .pushc, ⟨0, 4, 4⟩⟩), (c3_mat4, PassVar.init)]
        ⟨4, 0, 0⟩ := by
    unfold place_vars
    rw [show [c3_scalar, c3_mat4].map (fun sv => (sv, PassVar.init)) =
      [(c3_scalar, PassVar.init), (c3_mat4, PassVar.init)] from rfl]
    rw [hsweep1]
    rfl
  by_cases hu : 440 ≤ gpu.glsl_version ∧ gpu.max_ubo_size ≠ 0 ∧
      0 + 64 ≤ gpu.max_ubo_size
  · -- the matrix lands in the uniform buffer
    have hd : add_pass_var gpu true c3_mat4 PassVar.init ⟨4, 0, 0⟩ =
        some (⟨0, .ubo, ⟨0, 16, 64⟩⟩, ⟨4, 64, 0⟩) := by
      simp [add_pass_var, c3_mat4, PassVar.init, pl_std430_layout,
        pl_std140_layout, pl_align2, hv, h80, hu.1, hu.2.1, hu.2.2]
    refine ⟨[⟨0, .pushc, ⟨0, 4, 4⟩⟩, ⟨0, .ubo, ⟨0, 16, 64⟩⟩], ⟨4, 64, 0⟩,
      ?_, Or.inl rfl⟩
    rw [hstart, place_sweep, hc]
    dsimp only
    rw [place_sweep, hd]
    dsimp only
    rw [place_sweep]
  · -- no UBO available under these limits: global fallback
    have hiv : gpu.cap_input_variables = true := by
      rcases hcap with ⟨h440, h64⟩ | hiv
      · exfalso
        exact hu ⟨h440, by omega, by omega⟩
      · exact hiv
    have hd : add_pass_var gpu true c3_mat4 PassVar.init ⟨4, 0, 0⟩ =
        some (⟨0, .global, ⟨0, 16, 64⟩⟩, ⟨4, 0, 1⟩) := by
      rw [add_pass_var]
      rw [if_neg (by simp [PassVar.init])]
      dsimp only
      rw [if_neg (by
        rintro ⟨-, -, -, hfit⟩
        exact h80 (by
          simpa [c3_mat4, pl_std430_layout, pl_align2] using hfit))]
      rw [if_neg (by simp)]
      rw [if_neg (by
        rintro ⟨-, h440, hubo, hfit⟩
        exact hu ⟨h440, hubo, by
          simpa [c3_mat4, pl_std140_layout, pl_align2] using hfit⟩)]
      rw [if_pos hiv]
      simp [c3_mat4, pl_var_host_layout]
    refine ⟨[⟨0, .pushc, ⟨0, 4, 4⟩⟩, ⟨0, .global, ⟨0, 16, 64⟩⟩], ⟨4, 0, 1⟩,
      ?_, Or.inr rfl⟩
    rw [hstart, place_sweep, hc]
    dsimp only
    rw [place_sweep, hd]
    dsimp only
    rw [place_sweep]

/-- A concrete device for the C3 witness: Vulkan push constants of 4 bytes,
GLSL 450, a 64 KiB UBO limit, no global input variables. -/
def c3_gpu_example : PlGpu := ⟨true, 450, 4, 65536, false, true, true⟩

/-- Witness for C3 at the concrete example device. -/
theorem c3_two_pass_placement_witness :
    c3_gpu_example.glsl_vulkan = true ∧
    4 ≤ c3_gpu_example.max_pushc_size ∧
    c3_gpu_example.max_pushc_size < 80 ∧
    ((440 ≤ c3_gpu_example.glsl_version ∧
        64 ≤ c3_gpu_example.max_ubo_size) ∨
      c3_gpu_example.cap_input_variables = true) ∧
    (∃ pvs st, place_vars c3_gpu_example [c3_scalar, c3_mat4] =
        some (pvs, st) ∧
      (pvs.map PassVar.type = [.pushc, .ubo] ∨
       pvs.map PassVar.type = [.pushc, .global])) :=
  ⟨rfl, by decide, by decide, Or.inl (by decide),
   c3_two_pass_placement c3_gpu_example rfl (by decide) (by decide)
     (Or.inl (by decide))⟩

/-- The GPU environment of the C4 failing input: external pass creation
returns NULL. -/
def c4_gpu : PlGpu := ⟨true, 450, 256, 65536, true, true, false⟩

/-- The failed raster pass that the first C4 dispatch caches. -/
def c4_failed_raster_pass : Pass :=
  create_pass c4_gpu 1 false (some ⟨0⟩) [] none

/-- The failed compute pass that the first C4 compute dispatch caches. -/
def c4_failed_compute_pass : Pass :=
  create_pass c4_gpu 2 true none [] none

/-- C4 evaluated at the failing input: a failed pass is indeed appended to
the cache with its failed flag set (first conjunct), and for compute
shaders the subsequent matching dispatch does fail fast without
recompiling (third conjunct) — but for a raster shader the subsequent
matching lookup dereferences the NULL compiled-pass pointer of the cached
failed pass (modelled as the `none` result) instead of returning failure
(second conjunct), contradicting the claim. -/
theorem c4_failed_pass_cached_but_raster_lookup_crashes :
    (find_pass c4_gpu [] 1 false (some ⟨0⟩) [] none =
        some (c4_failed_raster_pass, [c4_failed_raster_pass], true) ∧
      c4_failed_raster_pass.failed = true) ∧
    find_pass c4_gpu [c4_failed_raster_pass] 1 false (some ⟨0⟩) [] none =
      none ∧
    (find_pass c4_gpu [] 2 true none [] none =
        some (c4_failed_compute_pass, [c4_failed_compute_pass], true) ∧
      c4_failed_compute_pass.failed = true ∧
      find_pass c4_gpu [c4_failed_compute_pass] 2 true none [] none =
        some (c4_failed_compute_pass, [c4_failed_compute_pass], false)) :=
  ⟨⟨rfl, rfl⟩, rfl, rfl, rfl, rfl⟩

/-- The lookup/run/reclaim tail always clears the handle and returns the
shader to the pool whenever it returns. -/
theorem dispatch_run_pass_reclaims (gpu : PlGpu) (dp : PlDispatch)
    (sh : PlShader) (target : PlTex) (blend : Option PlBlendParams)
    (r : Bool × PlDispatch × Option PlShader)
    (h : dispatch_run_pass gpu dp sh target blend = some r) :
    r.2.2 = none ∧ ∃ s, r.2.1.shaders = dp.shaders ++ [s] := by
  unfold dispatch_run_pass at h
  revert h
  rcases hfp : find_pass gpu dp.passes sh.signature sh.is_compute
      (some target.fmt) sh.vars blend with _ | ⟨p, ps, d⟩
  · intro h
    simp at h
  · intro h
    dsimp only at h
    split_ifs at h with hfail
    · injection h with h2
      subst h2
      exact ⟨rfl, sh, rfl⟩
    · injection h with h2
      subst h2
      exact ⟨rfl, sh, rfl⟩

/-- C5: every returning call of `pl_dispatch_finish` and of
`pl_dispatch_compute` on a non-NULL shader handle — on the success path,
on a failed cached pass and on every early-validation failure path —
returns the (possibly translated) shader object to the dispatcher's idle
pool and clears the caller's handle. -/
theorem c5_shader_always_reclaimed :
    (∀ (gpu : PlGpu) (dp : PlDispatch) (sh : PlShader) (target : PlTex)
        (rc : Option PlRect2D) (blend : Option PlBlendParams)
        (r : Bool × PlDispatch × Option PlShader),
      pl_dispatch_finish gpu dp sh target rc blend = some r →
      r.2.2 = none ∧ ∃ s, r.2.1.shaders = dp.shaders ++ [s]) ∧
    (∀ (gpu : PlGpu) (dp : PlDispatch) (sh : PlShader)
        (ds : Nat × Nat × Nat) (r : Bool × PlDispatch × Option PlShader),
      pl_dispatch_compute gpu dp sh ds = some r →
      r.2.2 = none ∧ ∃ s, r.2.1.shaders = dp.shaders ++ [s]) := by
  constructor
  · intro gpu dp sh target rc blend r h
    unfold pl_dispatch_finish at h
    split_ifs at h with h1 h2 h3 h4 h5
    · injection h with h0; subst h0; exact ⟨rfl, sh, rfl⟩
    · injection h with h0; subst h0; exact ⟨rfl, sh, rfl⟩
    · injection h with h0; subst h0; exact ⟨rfl, sh, rfl⟩
    · injection h with h0; subst h0; exact ⟨rfl, sh, rfl⟩
    · injection h with h0; subst h0; exact ⟨rfl, sh, rfl⟩
    · rcases hfs : sh.fixed_size with _ | wh
      · rw [hfs] at h
        dsimp only at h
        exact dispatch_run_pass_reclaims gpu dp _ target blend r h
      · rw [hfs] at h
        dsimp only at h
        split_ifs at h with hsz
        · injection h with h0; subst h0; exact ⟨rfl, sh, rfl⟩
        · exact dispatch_run_pass_reclaims gpu dp _ target blend r h
  · intro gpu dp sh ds r h
    unfold pl_dispatch_compute at h
    split_ifs at h with h1 h2 h3 h4 h5
    · injection h with h0; subst h0; exact ⟨rfl, sh, rfl⟩
    · injection h with h0; subst h0; exact ⟨rfl, sh, rfl⟩
    · injection h with h0; subst h0; exact ⟨rfl, sh, rfl⟩
    · injection h with h0; subst h0; exact ⟨rfl, sh, rfl⟩
    · injection h with h0; subst h0; exact ⟨rfl, sh, rfl⟩
    · revert h
      rcases hfp : find_pass gpu dp.passes sh.signature true none sh.vars
          none with _ | ⟨p, ps, d⟩
      · intro h
        simp at h
      · intro h
        dsimp only at h
        split_ifs at h with hfail
        · injection h with h0; subst h0; exact ⟨rfl, sh, rfl⟩
        · injection h with h0; subst h0; exact ⟨rfl, sh, rfl⟩

/-- The GPU environment of the C5 witness (compilation succeeds). -/
def c5_gpu : PlGpu := ⟨true, 450, 256, 65536, true, true, true⟩

/-- An already-failed shader, exercising the first validation path. -/
def c5_failed_shader : PlShader :=
  ⟨true, true, .sigNone, .sigColor, false, 9, [], 0, none⟩

/-- A valid targetless compute shader, exercising the success path. -/
def c5_compute_shader : PlShader :=
  ⟨false, true, .sigNone, .sigNone, true, 10, [], 0, none⟩

/-- A renderable and storable 2D target texture. -/
def c5_tex : PlTex := ⟨64, 64, 2, true, true, ⟨1⟩⟩

/-- The pass compiled by the C5 witness compute dispatch. -/
def c5_cpass : Pass := create_pass c5_gpu 10 true none [] none

/-- Witness for C5: a failing raster dispatch and a succeeding compute
dispatch, both reclaiming the shader and clearing the handle. -/
theorem c5_shader_always_reclaimed_witness :
    pl_dispatch_finish c5_gpu ⟨[], []⟩ c5_failed_shader c5_tex none none =
      some (false, ⟨[c5_failed_shader], []⟩, none) ∧
    ((false, (⟨[c5_failed_shader], []⟩ : PlDispatch),
        (none : Option PlShader)).2.2 = none ∧
      ∃ s, (false, (⟨[c5_failed_shader], []⟩ : PlDispatch),
        (none : Option PlShader)).2.1.shaders =
          (⟨[], []⟩ : PlDispatch).shaders ++ [s]) ∧
    pl_dispatch_compute c5_gpu ⟨[], []⟩ c5_compute_shader (1, 1, 1) =
      some (true, ⟨[c5_compute_shader], [c5_cpass]⟩, none) ∧
    ((true, (⟨[c5_compute_shader], [c5_cpass]⟩ : PlDispatch),
        (none : Option PlShader)).2.2 = none ∧
      ∃ s, (true, (⟨[c5_compute_shader], [c5_cpass]⟩ : PlDispatch),
        (none : Option PlShader)).2.1.shaders =
          (⟨[], []⟩ : PlDispatch).shaders ++ [s]) :=
  ⟨rfl,
   c5_shader_always_reclaimed.1 c5_gpu ⟨[], []⟩ c5_failed_shader c5_tex
     none none (false, ⟨[c5_failed_shader], []⟩, none) rfl,
   rfl,
   c5_shader_always_reclaimed.2 c5_gpu ⟨[], []⟩ c5_compute_shader (1, 1, 1)
     (true, ⟨[c5_compute_shader], [c5_cpass]⟩, none) rfl⟩

end Placebo
